import Mathlib

/-!
Verification development for the lease-contract assistant core:
a shallow embedding of `date_validator.py` (date parsing/validation) and
`llm_client.py` (the conversation router `get_chat_response` and the
contract operations), with theorems settling the specification claims.

Modelling conventions:
- Python `datetime.datetime` values produced by the validator always sit at
  midnight; the validator's reference date (`datetime.now()`) may carry a
  time of day, modelled as a flag `afterMidnight`.
- Python machine behaviour is modelled over `Int`/`Nat`; Python `%` with a
  positive modulus agrees with Lean's `Int` `%` (both return a value in
  `[0, modulus)`), so divisibility tests translate verbatim.
- Strings are Lean `String`s; the regex scans of the source are modelled as
  executable matchers over `List Char` that replicate the leftmost-match,
  greedy-with-backtracking semantics of the concrete patterns used.
  Character classes (`\d`, `\s`, `str.isalpha`) are modelled over the ASCII
  and Arabic ranges actually exercised by this program.
-/

set_option maxRecDepth 10000

namespace LeaseBot

/-- Whitespace characters of Python `str.strip` / regex `\s` (ASCII range). -/
def isPySpace (c : Char) : Bool :=
  c == ' ' || c == '\t' || c == '\n' || c == '\r' || c == '\x0b' || c == '\x0c'

/-- Digit value of an ASCII digit character. -/
def charDigit (c : Char) : Int :=
  (c.toNat : Int) - 48

/-- ASCII digit in `1`..`9`. -/
def isD19 (c : Char) : Bool :=
  decide (49 ≤ c.toNat ∧ c.toNat ≤ 57)

/-- Characters of the regex class `[أ-ي]` (U+0623 .. U+064A). -/
def isArabicClassCh (c : Char) : Bool :=
  decide (0x623 ≤ c.toNat ∧ c.toNat ≤ 0x64A)

/-- Python `str.strip` on a character list. -/
def pyStripL (l : List Char) : List Char :=
  ((l.dropWhile isPySpace).reverse.dropWhile isPySpace).reverse

/-- Python `str.strip`. -/
def pyStrip (s : String) : String :=
  String.mk (pyStripL s.data)

/-- Boolean list-prefix test. -/
def listPre : List Char → List Char → Bool
  | [], _ => true
  | _ :: _, [] => false
  | a :: p, b :: l => a == b && listPre p l

/-- Boolean contiguous-sublist test (`needle` occurs inside `hay`). -/
def listInfixB (n : List Char) : List Char → Bool
  | [] => n.isEmpty
  | c :: t => listPre n (c :: t) || listInfixB n t

/-- Python `n in s` (substring containment). -/
def strIn (n s : String) : Bool :=
  listInfixB n.data s.data

/-- Python `s.startswith(pre)`. -/
def pyStartsWith (s pre : String) : Bool :=
  listPre pre.data s.data

/-- Python `s[:k]` (first `k` characters). -/
def pyTake (s : String) (k : Nat) : String :=
  String.mk (s.data.take k)

/-- Python `"; ".join(l)`. -/
def joinSemi : List String → String
  | [] => ""
  | [x] => x
  | x :: xs => x ++ "; " ++ joinSemi xs

/-- Tail of a Python integer literal: digits with single underscores allowed
between digits. -/
def intTailOk : List Char → Bool
  | [] => true
  | '_' :: rest =>
    match rest with
    | d :: r => d.isDigit && intTailOk r
    | [] => false
  | d :: r => d.isDigit && intTailOk r

/-- Nonempty digit sequence with legal underscore placement. -/
def intDigitsOk : List Char → Bool
  | [] => false
  | c :: r => c.isDigit && intTailOk r

/-- Numeric value of a digit list (underscores removed beforehand). -/
def digitsVal (l : List Char) : Int :=
  l.foldl (fun a c => a * 10 + charDigit c) 0

/-- Python `int(str)` on ASCII input: optional surrounding whitespace, optional
sign, digits with single underscores between digits; `none` models the
`ValueError` raised otherwise.  (CPython additionally accepts non-ASCII decimal
digits, which this program never feeds it.) -/
def pyInt? (l : List Char) : Option Int :=
  let t := pyStripL l
  match t with
  | '+' :: rest => if intDigitsOk rest then some (digitsVal (rest.filter (fun c => c != '_'))) else none
  | '-' :: rest => if intDigitsOk rest then some (-(digitsVal (rest.filter (fun c => c != '_')))) else none
  | rest => if intDigitsOk rest then some (digitsVal (rest.filter (fun c => c != '_'))) else none

/-! ## Calendar model (`calendar` and `datetime` stdlib behaviour) -/

/-- `calendar.isleap(year)`. -/
def isleap (y : Int) : Bool :=
  decide (y % 4 = 0) && (!(decide (y % 100 = 0)) || decide (y % 400 = 0))

/-- `calendar.monthrange(year, month)[1]`: the number of days of the month
(defined for `1 ≤ month ≤ 12`, any year — `monthrange` maps out-of-range years
into a 400-year cycle for the weekday but uses `isleap(year)` directly for the
day count). -/
def daysInMonth (y m : Int) : Int :=
  if m = 2 then (if isleap y then 29 else 28)
  else if m = 4 ∨ m = 6 ∨ m = 9 ∨ m = 11 then 30
  else 31

/-- Whether `datetime.datetime(year, month, day)` constructs without raising:
`datetime.MINYEAR = 1`, `datetime.MAXYEAR = 9999`. -/
def datetimeOk (y m d : Int) : Bool :=
  decide (1 ≤ y ∧ y ≤ 9999 ∧ 1 ≤ m ∧ m ≤ 12 ∧ 1 ≤ d) && decide (d ≤ daysInMonth y m)

/-- A constructed `datetime.datetime` at midnight (the only kind the date
parser produces). -/
structure PyDate where
  year : Int
  month : Int
  day : Int
deriving DecidableEq, Repr

/-- `datetime.datetime(y, m, d)`: `some` on success, `none` models the raised
`ValueError`/`OverflowError`. -/
def mkDate (y m d : Int) : Option PyDate :=
  if datetimeOk y m d then some ⟨y, m, d⟩ else none

/-- Field-lexicographic comparison, as `datetime` comparison on midnight
values. -/
def dateLt (a b : PyDate) : Prop :=
  a.year < b.year ∨ (a.year = b.year ∧ (a.month < b.month ∨ (a.month = b.month ∧ a.day < b.day)))

instance (a b : PyDate) : Decidable (dateLt a b) := by
  unfold dateLt; exact inferInstance

/-- `a <= b` on dates. -/
def dateLe (a b : PyDate) : Prop :=
  dateLt a b ∨ a = b

instance (a b : PyDate) : Decidable (dateLe a b) := by
  unfold dateLe; exact inferInstance

/-- Number of days of a year. -/
def daysInYear (y : Int) : Int :=
  if isleap y then 366 else 365

/-- CPython's `_days_before_year(year)`: days in the years `1..year-1`
(`y*365 + y//4 - y//100 + y//400` with `y = year - 1`; Python `//` with a
positive divisor is Lean's `Int` `/`). -/
def daysBeforeYear (year : Int) : Int :=
  (year - 1) * 365 + (year - 1) / 4 - (year - 1) / 100 + (year - 1) / 400

/-- Days contained in the months `1..n` of year `y`
(CPython's `_days_before_month`). -/
def dbmAux (y : Int) : Nat → Int
  | 0 => 0
  | m + 1 => dbmAux y m + daysInMonth y ((m : Int) + 1)

/-- `datetime.date.toordinal`: day number counting 0001-01-01 as 1.  Timedelta
subtraction of two midnight datetimes in days is the difference of ordinals. -/
def toOrdinal (d : PyDate) : Int :=
  daysBeforeYear d.year + dbmAux d.year (d.month - 1).toNat + d.day

/-- The validator's reference datetime (`datetime.now()` unless injected):
a calendar date plus a flag recording whether its time of day is after
midnight (parsed dates sit exactly at midnight, so this flag decides
comparisons against an equal calendar date). -/
structure PyDateTime where
  date : PyDate
  afterMidnight : Bool
deriving DecidableEq, Repr

/-- `parsed < reference` where `parsed` is a midnight datetime. -/
def dtLtRef (d : PyDate) (r : PyDateTime) : Prop :=
  dateLt d r.date ∨ (d = r.date ∧ r.afterMidnight = true)

instance (d : PyDate) (r : PyDateTime) : Decidable (dtLtRef d r) := by
  unfold dtLtRef; exact inferInstance

/-- Zero-padded two-digit rendering (`%d`, `%m` of `strftime`). -/
def pad2 (n : Int) : String :=
  if n < 10 then "0" ++ toString n else toString n

/-- `strftime('%d/%m/%Y')` (years in this program are four digits). -/
def fmtDMY (d : PyDate) : String :=
  pad2 d.day ++ "/" ++ pad2 d.month ++ "/" ++ toString d.year

/-! ## `strptime` model for the formats in `DateValidator.DATE_FORMATS`

CPython's `_strptime` compiles `%d` to the regex
`(3[0-1]|[1-2]\d|0[1-9]|[1-9]| [1-9])`, `%m` to `(1[0-2]|0[1-9]|[1-9])` and
`%Y` to `(\d\d\d\d)`, requires the whole input to be consumed, and finally
constructs the date (raising `ValueError` for a calendrically impossible
combination).  The formats `%-d/%-m/%Y` and `%#d/%#m/%Y` raise
`ValueError` (bad directive) for every input and therefore never parse. -/

/-- Candidate matches of the `%d` directive, in regex alternation order. -/
def dOpts (l : List Char) : List (Int × List Char) :=
  (match l with
   | c1 :: c2 :: rest =>
     if c1 == '3' && (c2 == '0' || c2 == '1') then [(30 + charDigit c2, rest)]
     else if (c1 == '1' || c1 == '2') && c2.isDigit then [(charDigit c1 * 10 + charDigit c2, rest)]
     else if c1 == '0' && isD19 c2 then [(charDigit c2, rest)]
     else []
   | _ => []) ++
  (match l with
   | c1 :: rest => if isD19 c1 then [(charDigit c1, rest)] else []
   | [] => []) ++
  (match l with
   | c1 :: c2 :: rest => if c1 == ' ' && isD19 c2 then [(charDigit c2, rest)] else []
   | _ => [])

/-- Candidate matches of the `%m` directive, in regex alternation order. -/
def mOpts (l : List Char) : List (Int × List Char) :=
  (match l with
   | c1 :: c2 :: rest =>
     if c1 == '1' && (c2 == '0' || c2 == '1' || c2 == '2') then [(10 + charDigit c2, rest)]
     else if c1 == '0' && isD19 c2 then [(charDigit c2, rest)]
     else []
   | _ => []) ++
  (match l with
   | c1 :: rest => if isD19 c1 then [(charDigit c1, rest)] else []
   | [] => [])

/-- The `%Y` directive: exactly four digits. -/
def yOpt (l : List Char) : Option (Int × List Char) :=
  match l with
  | a :: b :: c :: d :: rest =>
    if a.isDigit && b.isDigit && c.isDigit && d.isDigit then
      some (charDigit a * 1000 + charDigit b * 100 + charDigit c * 10 + charDigit d, rest)
    else none
  | _ => none

/-- First success of `f` over a candidate list (regex backtracking order). -/
def pickFirst {α β : Type} : List α → (α → Option β) → Option β
  | [], _ => none
  | a :: as, f =>
    match f a with
    | some b => some b
    | none => pickFirst as f

/-- Full-input match of a `%d SEP %m SEP %Y` format; yields `(day, month, year)`. -/
def tryDMY (sep : Char) (cs : List Char) : Option (Int × Int × Int) :=
  pickFirst (dOpts cs) fun dp =>
    match dp.2 with
    | c :: r2 =>
      if c == sep then
        pickFirst (mOpts r2) fun mp =>
          match mp.2 with
          | c2 :: r4 =>
            if c2 == sep then
              match yOpt r4 with
              | some (y, []) => some (dp.1, mp.1, y)
              | _ => none
            else none
          | [] => none
      else none
    | [] => none

/-- Full-input match of a `%Y SEP %m SEP %d` format; yields `(day, month, year)`. -/
def tryYMD (sep : Char) (cs : List Char) : Option (Int × Int × Int) :=
  match yOpt cs with
  | some (y, c :: r2) =>
    if c == sep then
      pickFirst (mOpts r2) fun mp =>
        match mp.2 with
        | c2 :: r4 =>
          if c2 == sep then
            pickFirst (dOpts r4) fun dp =>
              match dp.2 with
              | [] => some (dp.1, mp.1, y)
              | _ => none
          else none
        | [] => none
    else none
  | _ => none

/-- `DATE_FORMATS` in declaration order; the two single-digit formats always
raise and are omitted (they can match no input). -/
def fmtMatchers : List (List Char → Option (Int × Int × Int)) :=
  [tryDMY '/', tryDMY '-', tryYMD '/', tryYMD '-', tryDMY '.']

/-- The `for fmt in DATE_FORMATS` loop: on a regex match, the date is
constructed; a construction failure (`ValueError`) moves on to the next
format. -/
def runFormats : List (List Char → Option (Int × Int × Int)) → List Char → Option PyDate
  | [], _ => none
  | f :: fs, cs =>
    match f cs with
    | some (d, m, y) =>
      match mkDate y m d with
      | some dt => some dt
      | none => runFormats fs cs
    | none => runFormats fs cs

/-! ## Manual fallback of `parse_date` -/

/-- Python `str.split(sep)` (keeps empty fields). -/
def pySplitAux (sep : Char) : List Char → List Char → List (List Char)
  | [], acc => [acc.reverse]
  | c :: rest, acc =>
    if c == sep then acc.reverse :: pySplitAux sep rest []
    else pySplitAux sep rest (c :: acc)

/-- Python `str.split(sep)`. -/
def pySplit (l : List Char) (sep : Char) : List (List Char) :=
  pySplitAux sep l []

/-- Outcome of one iteration of the fallback loop: a constructed date, an
exception aborting the whole `try` block, or fall-through to the next
separator. -/
inductive FbStep where
  | found : PyDate → FbStep
  | abortParse : FbStep
  | next : FbStep

/-- One iteration of `for sep in ['/', '-', '.']` in `parse_date`'s manual
fallback: split on the separator; with three parts and a 4-digit third part
read DD/MM/YYYY, else with a 4-digit first part read YYYY/MM/DD; any
`int()` or `datetime()` failure raises out of the whole loop. -/
def fbTry (cs : List Char) (sep : Char) : FbStep :=
  if cs.contains sep then
    match pySplit cs sep with
    | [p0, p1, p2] =>
      if p2.length = 4 then
        match pyInt? p0, pyInt? p1, pyInt? p2 with
        | some d, some m, some y =>
          match mkDate y m d with
          | some dt => FbStep.found dt
          | none => FbStep.abortParse
        | _, _, _ => FbStep.abortParse
      else if p0.length = 4 then
        match pyInt? p0, pyInt? p1, pyInt? p2 with
        | some y, some m, some d =>
          match mkDate y m d with
          | some dt => FbStep.found dt
          | none => FbStep.abortParse
        | _, _, _ => FbStep.abortParse
      else FbStep.next
    | _ => FbStep.next
  else FbStep.next

/-- The manual-parsing fallback of `parse_date` (an exception anywhere makes
the surrounding `try` return `None`). -/
def manualFallback (cs : List Char) : Option PyDate :=
  match fbTry cs '/' with
  | .found dt => some dt
  | .abortParse => none
  | .next =>
    match fbTry cs '-' with
    | .found dt => some dt
    | .abortParse => none
    | .next =>
      match fbTry cs '.' with
      | .found dt => some dt
      | _ => none

/-! ## Arabic month-name parsing -/

/-- Split a list at the longest prefix satisfying `p`. -/
def takeWhileSplit (p : Char → Bool) (l : List Char) : List Char × List Char :=
  (l.takeWhile p, l.dropWhile p)

/-- The `ARABIC_MONTHS` table. -/
def arabicMonths : List (String × Int) :=
  [("يناير", 1), ("يناير", 1),
   ("فبراير", 2), ("شباط", 2),
   ("مارس", 3), ("آذار", 3),
   ("أبريل", 4), ("نيسان", 4), ("ابريل", 4),
   ("مايو", 5), ("أيار", 5), ("ماي", 5),
   ("يونيو", 6), ("حزيران", 6), ("يونيه", 6),
   ("يوليو", 7), ("تموز", 7), ("يوليه", 7),
   ("أغسطس", 8), ("آب", 8), ("اغسطس", 8),
   ("سبتمبر", 9), ("أيلول", 9),
   ("أكتوبر", 10), ("تشرين الأول", 10), ("اكتوبر", 10),
   ("نوفمبر", 11), ("تشرين الثاني", 11),
   ("ديسمبر", 12), ("كانون الأول", 12), ("دسمبر", 12)]

/-- `ARABIC_MONTHS.get(name)`. -/
def arabicMonth? (s : String) : Option Int :=
  (arabicMonths.find? (fun p => p.1 == s)).map (fun p => p.2)

/-- Continuation of the Arabic date regex after the day digits:
`\s+ [أ-ي]+ \s+ \d{4}` (greedy runs over pairwise-disjoint classes). -/
def arabicAfterDay (d : Int) (l : List Char) : Option (Int × String × Int) :=
  let (ws1, r1) := takeWhileSplit isPySpace l
  if ws1.isEmpty then none
  else
    let (name, r2) := takeWhileSplit isArabicClassCh r1
    if name.isEmpty then none
    else
      let (ws2, r3) := takeWhileSplit isPySpace r2
      if ws2.isEmpty then none
      else
        match yOpt r3 with
        | some (y, _) => some (d, String.mk name, y)
        | none => none

/-- Match of `(\d{1,2})\s+([أ-ي]+)\s+(\d{4})` anchored at this position,
with the regex preference of two day digits over one. -/
def arabicSearchAt (l : List Char) : Option (Int × String × Int) :=
  match l with
  | c1 :: rest =>
    if c1.isDigit then
      match rest with
      | c2 :: rest2 =>
        if c2.isDigit then
          match arabicAfterDay (charDigit c1 * 10 + charDigit c2) rest2 with
          | some r => some r
          | none => arabicAfterDay (charDigit c1) rest
        else arabicAfterDay (charDigit c1) rest
      | [] => none
    else none
  | [] => none

/-- `re.search` of the Arabic date pattern: leftmost match. -/
def arabicSearch : List Char → Option (Int × String × Int)
  | [] => none
  | c :: t =>
    match arabicSearchAt (c :: t) with
    | some r => some r
    | none => arabicSearch t

/-- The standard-format then manual-fallback part of `parse_date`. -/
def parseStdFormats (t : List Char) : Option PyDate :=
  match runFormats fmtMatchers t with
  | some dt => some dt
  | none => manualFallback t

/-- `DateValidator.parse_date`. -/
def parse_date (s : String) : Option PyDate :=
  if s = "" then none
  else
    let t := pyStripL s.data
    match arabicSearch t with
    | some (d, name, y) =>
      match arabicMonth? name with
      | some m =>
        match mkDate y m d with
        | some dt => some dt
        | none => parseStdFormats t
      | none => parseStdFormats t
    | none => parseStdFormats t

/-! ## `DateValidator` operations -/

/-- `DateValidator.is_valid_date`. -/
def is_valid_date (day month year : Int) : Bool :=
  if ¬(1 ≤ month ∧ month ≤ 12) then false
  else if ¬(1 ≤ day ∧ day ≤ daysInMonth year month) then false
  else datetimeOk year month day

/-- `DateValidator.validate_date`: `(is_valid, error_message, parsed_date)`. -/
def validate_date (s : String) : Bool × String × Option PyDate :=
  match parse_date s with
  | none => (false, "Invalid date format: " ++ s, none)
  | some p =>
    if is_valid_date p.day p.month p.year = false then
      (false, "Invalid date: " ++ s ++ " (this date does not exist in the calendar)", none)
    else if ¬(1900 ≤ p.year ∧ p.year ≤ 2100) then
      (false, "Year out of reasonable range: " ++ toString p.year, none)
    else (true, "", some p)

/-- `DateValidator.validate_date_range` (`ref` is the validator's reference
datetime): `(is_valid, error_message)`. -/
def validate_date_range (ref : PyDateTime) (startS endS : String)
    (allowPastStart : Bool) (minDur maxDur : Int) : Bool × String :=
  match validate_date startS with
  | (true, _, some sd) =>
    (match validate_date endS with
     | (true, _, some ed) =>
       if allowPastStart = false ∧ dtLtRef sd ref then
         (false, "Start date " ++ startS ++ " is in the past. " ++
           "Lease contracts should start on or after today (" ++ fmtDMY ref.date ++ ")")
       else if dateLe ed sd then
         (false, "End date " ++ endS ++ " must be after start date " ++ startS ++ ". " ++
           "The lease period goes backward in time.")
       else
         let dur := toOrdinal ed - toOrdinal sd
         if dur < minDur then
           (false, "Lease duration too short: " ++ toString dur ++ " days. " ++
             "Minimum duration is " ++ toString minDur ++ " days.")
         else if dur > maxDur then
           (false, "Lease duration too long: " ++ toString dur ++ " days (" ++
             toString (Int.fdiv dur 365) ++ " years). " ++
             "Maximum duration is " ++ toString (Int.fdiv maxDur 365) ++ " years.")
         else (true, "")
     | (_, endErr, _) => (false, "End date error: " ++ endErr))
  | (_, startErr, _) => (false, "Start date error: " ++ startErr)

/-! ## The three individual patterns and four range patterns of
`extract_and_validate_dates`, as leftmost non-overlapping `finditer` scans -/

/-- The character class `[/.-]`. -/
def sepCl (c : Char) : Bool :=
  c == '/' || c == '.' || c == '-'

/-- Candidate matches of `\d{1,2}`, in greedy order. -/
def digits12 (l : List Char) : List (List Char × List Char) :=
  match l with
  | c1 :: c2 :: rest =>
    if c1.isDigit && c2.isDigit then [([c1, c2], rest), ([c1], c2 :: rest)]
    else if c1.isDigit then [([c1], c2 :: rest)]
    else []
  | [c1] => if c1.isDigit then [([c1], [])] else []
  | [] => []

/-- Match of `\d{4}` (exactly four digits). -/
def digits4 (l : List Char) : Option (List Char × List Char) :=
  match l with
  | a :: b :: c :: d :: rest =>
    if a.isDigit && b.isDigit && c.isDigit && d.isDigit then some ([a, b, c, d], rest)
    else none
  | _ => none

/-- Match of `\d{1,2}[/.-]\d{1,2}[/.-]\d{4}` anchored here: matched text and
rest. -/
def p1At (cs : List Char) : Option (List Char × List Char) :=
  pickFirst (digits12 cs) fun dp =>
    match dp.2 with
    | s1 :: r2 =>
      if sepCl s1 then
        pickFirst (digits12 r2) fun mp =>
          match mp.2 with
          | s2 :: r4 =>
            if sepCl s2 then
              match digits4 r4 with
              | some (y, rest) => some (dp.1 ++ [s1] ++ mp.1 ++ [s2] ++ y, rest)
              | none => none
            else none
          | [] => none
      else none
    | [] => none

/-- Match of `\d{4}[/.-]\d{1,2}[/.-]\d{1,2}` anchored here. -/
def p2At (cs : List Char) : Option (List Char × List Char) :=
  match digits4 cs with
  | some (y, s1 :: r2) =>
    if sepCl s1 then
      pickFirst (digits12 r2) fun mp =>
        match mp.2 with
        | s2 :: r4 =>
          if sepCl s2 then
            pickFirst (digits12 r4) fun dp =>
              some (y ++ [s1] ++ mp.1 ++ [s2] ++ dp.1, dp.2)
          else none
        | [] => none
    else none
  | _ => none

/-- Match of `\d{1,2}\s+[أ-ي]+\s+\d{4}` anchored here. -/
def p3At (cs : List Char) : Option (List Char × List Char) :=
  pickFirst (digits12 cs) fun dp =>
    let (ws1, r1) := takeWhileSplit isPySpace dp.2
    if ws1.isEmpty then none
    else
      let (name, r2) := takeWhileSplit isArabicClassCh r1
      if name.isEmpty then none
      else
        let (ws2, r3) := takeWhileSplit isPySpace r2
        if ws2.isEmpty then none
        else
          match digits4 r3 with
          | some (y, rest) => some (dp.1 ++ ws1 ++ name ++ ws2 ++ y, rest)
          | none => none

/-- `re.finditer`: leftmost matches, continuing after each match's end.  The
fuel bounds the recursion (every step drops at least one character since the
patterns only match nonempty text). -/
def findIterG {α : Type} (pAt : List Char → Option (α × List Char)) :
    Nat → List Char → List α
  | 0, _ => []
  | fuel + 1, cs =>
    match pAt cs with
    | some (a, rest) => a :: findIterG pAt fuel rest
    | none =>
      match cs with
      | [] => []
      | _ :: t => findIterG pAt fuel t

/-- Run a `finditer` scan over a whole character list. -/
def runFind {α : Type} (pAt : List Char → Option (α × List Char)) (cs : List Char) : List α :=
  findIterG pAt (cs.length + 1) cs

/-- One entry of the `found_dates` list. -/
structure FoundDate where
  text : String
  parsed : Option PyDate
  valid : Bool
  error : String
deriving DecidableEq, Repr

/-- The first loop of `extract_and_validate_dates`: every match of the three
individual date patterns, validated, producing the `found_dates` list and the
individual-date error list. -/
def individual_scan (text : String) : List FoundDate × List String :=
  let ms := runFind p1At text.data ++ runFind p2At text.data ++ runFind p3At text.data
  ms.foldl
    (fun acc m =>
      let ds := String.mk m
      let r := validate_date ds
      (acc.1 ++ [⟨ds, r.2.2, r.1, r.2.1⟩],
       acc.2 ++ (if r.1 then [] else ["Invalid date \x27" ++ ds ++ "\x27: " ++ r.2.1])))
    ([], [])

/-- Case-insensitive literal match (ASCII case folding; `re.IGNORECASE`). -/
def matchLitCI : List Char → List Char → Option (List Char)
  | [], rest => some rest
  | _ :: _, [] => none
  | a :: ls, b :: rest => if a.toLower == b.toLower then matchLitCI ls rest else none

/-- `\s+` (greedy; always followed here by a disjoint class). -/
def wsPlus (cs : List Char) : Option (List Char) :=
  let (w, r) := takeWhileSplit isPySpace cs
  if w.isEmpty then none else some r

/-- `[:\s]+` (greedy). -/
def colonWsPlus (cs : List Char) : Option (List Char) :=
  let (w, r) := takeWhileSplit (fun c => c == ':' || isPySpace c) cs
  if w.isEmpty then none else some r

/-- Range pattern `من\s+(G)\s+(?:إلى|حتى|الى)\s+(G)` where `G` is the
`\d{1,2}[/.-]\d{1,2}[/.-]\d{4}` group. -/
def pr1At (cs : List Char) : Option ((String × String) × List Char) :=
  (matchLitCI "من".data cs).bind fun r1 =>
  (wsPlus r1).bind fun r2 =>
  (p1At r2).bind fun g1 =>
  (wsPlus g1.2).bind fun r4 =>
  (match matchLitCI "إلى".data r4 with
   | some r => some r
   | none =>
     match matchLitCI "حتى".data r4 with
     | some r => some r
     | none => matchLitCI "الى".data r4).bind fun r5 =>
  (wsPlus r5).bind fun r6 =>
  (p1At r6).map fun (g2 : List Char × List Char) => ((String.mk g1.1, String.mk g2.1), g2.2)

/-- Range pattern `from\s+(G)\s+to\s+(G)` (case-insensitive). -/
def pr2At (cs : List Char) : Option ((String × String) × List Char) :=
  (matchLitCI "from".data cs).bind fun r1 =>
  (wsPlus r1).bind fun r2 =>
  (p1At r2).bind fun g1 =>
  (wsPlus g1.2).bind fun r4 =>
  (matchLitCI "to".data r4).bind fun r5 =>
  (wsPlus r5).bind fun r6 =>
  (p1At r6).map fun (g2 : List Char × List Char) => ((String.mk g1.1, String.mk g2.1), g2.2)

/-- Range pattern `From[:\s]+(G)\s+to\s+(G)` (case-insensitive). -/
def pr3At (cs : List Char) : Option ((String × String) × List Char) :=
  (matchLitCI "from".data cs).bind fun r1 =>
  (colonWsPlus r1).bind fun r2 =>
  (p1At r2).bind fun g1 =>
  (wsPlus g1.2).bind fun r4 =>
  (matchLitCI "to".data r4).bind fun r5 =>
  (wsPlus r5).bind fun r6 =>
  (p1At r6).map fun (g2 : List Char × List Char) => ((String.mk g1.1, String.mk g2.1), g2.2)

/-- Range pattern `Term[:\s]+from\s+(G)\s+to\s+(G)` (case-insensitive). -/
def pr4At (cs : List Char) : Option ((String × String) × List Char) :=
  (matchLitCI "term".data cs).bind fun r0 =>
  (colonWsPlus r0).bind fun r1 =>
  (matchLitCI "from".data r1).bind fun r1b =>
  (wsPlus r1b).bind fun r2 =>
  (p1At r2).bind fun g1 =>
  (wsPlus g1.2).bind fun r4 =>
  (matchLitCI "to".data r4).bind fun r5 =>
  (wsPlus r5).bind fun r6 =>
  (p1At r6).map fun (g2 : List Char × List Char) => ((String.mk g1.1, String.mk g2.1), g2.2)

/-- The second loop of `extract_and_validate_dates`: every range-phrase match,
range-validated with the default duration bounds, producing the range error
list. -/
def range_scan (ref : PyDateTime) (text : String) (allowPastStart : Bool) : List String :=
  let pairs := runFind pr1At text.data ++ runFind pr2At text.data ++
               runFind pr3At text.data ++ runFind pr4At text.data
  pairs.foldl
    (fun errs p =>
      let r := validate_date_range ref p.1 p.2 allowPastStart 1 36500
      errs ++ (if r.1 then [] else [r.2]))
    []

/-- `DateValidator.extract_and_validate_dates`:
`(all_valid, error_message, found_dates)`.  Note the early return: when any
individual date is invalid, the range loop is never reached. -/
def extract_and_validate_dates (ref : PyDateTime) (text : String)
    (allowPastStart : Bool) : Bool × String × List FoundDate :=
  let fe := individual_scan text
  if fe.2 ≠ [] then (false, joinSemi fe.2, fe.1)
  else
    let errs2 := range_scan ref text allowPastStart
    if errs2 ≠ [] then (false, joinSemi errs2, fe.1)
    else (true, "", fe.1)

/-- The `while` loop looking for the next leap year (at most nine steps, so
fuel 20 is exact). -/
def leapLoop (bound : Int) : Int → Nat → Int
  | cur, 0 => cur
  | cur, f + 1 => if !(isleap cur) && decide (cur < bound) then leapLoop bound (cur + 1) f else cur

/-- `DateValidator.get_validation_suggestions`. -/
def get_validation_suggestions (ref : PyDateTime) (s : String) : List String :=
  match parse_date s with
  | none => ["Use format DD/MM/YYYY (e.g., 23/02/2026)"]
  | some p =>
    let s1 : List String :=
      if p.month = 2 ∧ p.day = 29 ∧ isleap p.year = false then
        let base := ["February 29 does not exist in " ++ toString p.year ++ " (not a leap year)",
                     "Try: 28/02/" ++ toString p.year ++ " or 01/03/" ++ toString p.year]
        let nl := leapLoop (p.year + 10) (p.year + 1) 20
        if nl < p.year + 10 then base ++ ["Or use a leap year: 29/02/" ++ toString nl] else base
      else []
    let maxDay := daysInMonth p.year p.month
    let s2 : List String :=
      if p.day > maxDay then
        ["Day " ++ toString p.day ++ " is invalid for month " ++ toString p.month ++ "/" ++
           toString p.year ++ ". Maximum day is " ++ toString maxDay,
         "Try: " ++ toString maxDay ++ "/" ++ pad2 p.month ++ "/" ++ toString p.year]
      else []
    let s3 : List String :=
      if toOrdinal p < toOrdinal ref.date - 365 ∨
         (toOrdinal p = toOrdinal ref.date - 365 ∧ ref.afterMidnight = true) then
        ["Date is in the past (" ++ fmtDMY p ++ "). Consider using a current or future date."]
      else []
    s1 ++ s2 ++ s3

/-! ## `llm_client.py`: contract operations and the conversation router

The text-completion backend (`_chat_completion`) is a parameter: `none`
models a failed call, `some content` a returned completion.  The intent
classifier's label is likewise a parameter — `_classify_intent` always
yields some label string (defaulting to `"chat"`), and the router consults
nothing else of its output.  Retrieval only shapes prompts, never return
values, so it does not appear. -/

/-- `MIN_CONTRACT_LENGTH`. -/
def MIN_CONTRACT_LENGTH : Nat := 200

/-- Python `str.isalpha` restricted to the scripts this program meets:
ASCII letters and the basic Arabic letter block. -/
def pyIsAlpha (c : Char) : Bool :=
  c.isAlpha || decide (0x621 ≤ c.toNat ∧ c.toNat ≤ 0x64A)

/-- `LLMClient._detect_language`: Arabic when the ratio of U+0600..U+06FF
characters among alphabetic characters exceeds 0.3 (the float comparison
`a / t > 0.3` agrees with `10 * a > 3 * t` at every ratio this integer test
distinguishes). -/
def detect_language (s : String) : String :=
  if s = "" then "english"
  else
    let arabicChars := (s.data.filter (fun c => decide (0x600 ≤ c.toNat ∧ c.toNat ≤ 0x6FF))).length
    let totalChars := (s.data.filter pyIsAlpha).length
    if totalChars = 0 then "english"
    else if 10 * arabicChars > 3 * totalChars then "arabic" else "english"

/-- The localized alert built by `_validate_dates_in_text` on a failed scan. -/
def dateAlert (lang errorMsg : String) : String :=
  if lang = "arabic" then
    "⚠️ خطأ في التاريخ:\n\n" ++ errorMsg ++ "\n\nالرجاء تصحيح التاريخ والمحاولة مرة أخرى."
  else
    "⚠️ Date Validation Error:\n\n" ++ errorMsg ++ "\n\nPlease correct the date and try again."

/-- `LLMClient._validate_dates_in_text`: `(is_valid, error_message_if_invalid)`. -/
def validate_dates_in_text (ref : PyDateTime) (text lang : String) : Bool × Option String :=
  let r := extract_and_validate_dates ref text false
  if r.1 = false then (false, some (dateAlert lang r.2.1))
  else (true, none)

/-- `LLMClient.generate_contract` (`resp` is the completion backend's answer;
the function always returns a string — either the generated contract or an
error/fallback message). -/
def generate_contract (ref : PyDateTime) (userInput : String) (resp : Option String) : String :=
  let lang := detect_language userInput
  match validate_dates_in_text ref userInput lang with
  | (false, some alert) => alert
  | _ =>
    match resp with
    | none =>
      if lang = "arabic" then "عذراً، حدث خطأ في إنشاء العقد."
      else "Sorry, error generating contract."
    | some content =>
      let generated := pyStrip content
      match validate_dates_in_text ref generated lang with
      | (false, some alert) =>
        if lang = "arabic" then
          "⚠️ العقد المُنشأ يحتوي على تواريخ غير صحيحة:\n\n" ++ alert ++ "\n\nالرجاء المحاولة مرة أخرى."
        else
          "⚠️ Generated contract contains invalid dates:\n\n" ++ alert ++ "\n\nPlease try again."
      | _ => generated

/-- `LLMClient.edit_contract` (the current contract only shapes the prompt,
never the returned text). -/
def edit_contract (ref : PyDateTime) (_currentContract userRequest : String)
    (resp : Option String) : String :=
  let lang := detect_language userRequest
  match validate_dates_in_text ref userRequest lang with
  | (false, some alert) => alert
  | _ =>
    match resp with
    | none =>
      if lang = "arabic" then "عذراً، حدث خطأ في التعديل."
      else "Sorry, error during edit."
    | some content =>
      let edited := pyStrip content
      match validate_dates_in_text ref edited lang with
      | (false, some alert) =>
        if lang = "arabic" then
          "⚠️ التعديل أنتج تواريخ غير صحيحة:\n\n" ++ alert ++ "\n\nالعقد الأصلي محفوظ."
        else
          "⚠️ Edit produced invalid dates:\n\n" ++ alert ++ "\n\nOriginal contract preserved."
      | _ => edited

/-- `LLMClient.review_contract` (retrieval and the date analysis only augment
the prompt). -/
def review_contract (contractText : String) (resp : Option String) : String :=
  let lang := detect_language contractText
  match resp with
  | none =>
    if lang = "arabic" then "عذراً، حدث خطأ في المراجعة."
    else "Sorry, error during review."
  | some content => pyStrip content

/-- `LLMClient.explain_clause`. -/
def explain_clause (userQuery : String) (resp : Option String) : String :=
  let lang := detect_language userQuery
  match resp with
  | none =>
    if lang = "arabic" then "عذراً، لم أستطع الشرح."
    else "Sorry, couldn\x27t explain."
  | some content => pyStrip content

/-- The contract-memory slot of the session after the sync step at the top of
`get_chat_response`: a caller-supplied truthy, non-blank contract is stored
verbatim (unstripped). -/
def syncMemory (cc mem : Option String) : Option String :=
  match cc with
  | some c => if c ≠ "" ∧ pyStrip c ≠ "" then some c else mem
  | none => mem

/-- The `active_contract` value of `get_chat_response`: the stripped
caller-supplied contract when truthy and non-blank, else the stored one. -/
def activeContract (cc mem : Option String) : Option String :=
  match cc with
  | some c => if c ≠ "" ∧ pyStrip c ≠ "" then some (pyStrip c) else mem
  | none => mem

/-- Result of one router call: the returned `(message, contract, action)`
triple together with the session's contract-memory slot after the call. -/
structure RouterResult where
  message : String
  contract : Option String
  action : String
  memOut : Option String
deriving DecidableEq, Repr

/-- The error-message sniff applied to operation results:
`contract.startswith("⚠️") or "خطأ" in contract[:50]`. -/
def isErrorMessage (s : String) : Bool :=
  pyStartsWith s "⚠️" || strIn "خطأ" (pyTake s 50)

/-- The `create` branch of `get_chat_response`. -/
def routeCreate (ref : PyDateTime) (lang ui : String) (resp : Option String)
    (active mem1 : Option String) : RouterResult :=
  let contract := generate_contract ref ui resp
  if contract ≠ "" ∧ isErrorMessage contract = true then
    match active with
    | some a => ⟨contract, some a, "unchanged", mem1⟩
    | none => ⟨contract, none, "none", mem1⟩
  else if contract ≠ "" then
    ⟨if lang = "arabic" then "تم إنشاء العقد بنجاح ✓" else "Contract created successfully ✓",
     some contract, "updated", some contract⟩
  else
    let errMsg := if lang = "arabic" then "خطأ في إنشاء العقد" else "Error creating contract"
    match active with
    | some a => ⟨errMsg, some a, "unchanged", mem1⟩
    | none => ⟨errMsg, none, "none", mem1⟩

/-- The `edit` branch of `get_chat_response`. -/
def routeEdit (ref : PyDateTime) (lang ui : String) (resp : Option String)
    (active mem1 : Option String) : RouterResult :=
  match active with
  | none =>
    ⟨if lang = "arabic" then "أحتاج عقد موجود لأعدله. الصق العقد أو اطلب إنشاء عقد جديد."
      else "I need an existing contract to edit. Paste one or ask me to create a new contract.",
     none, "none", mem1⟩
  | some a =>
    let updated := edit_contract ref a ui resp
    if updated ≠ "" ∧ isErrorMessage updated = true then
      ⟨updated, some a, "unchanged", mem1⟩
    else if updated ≠ "" ∧ MIN_CONTRACT_LENGTH ≤ (pyStrip updated).length ∧ updated ≠ a then
      ⟨if lang = "arabic" then "تم التعديل بنجاح ✓" else "Updated successfully ✓",
       some updated, "updated", some updated⟩
    else
      ⟨if lang = "arabic" then "لم أتمكن من التعديل. هل يمكنك توضيح الطلب؟"
        else "Couldn\x27t update. Can you clarify?",
       some a, "unchanged", mem1⟩

/-- The `explain` branch of `get_chat_response`. -/
def routeExplain (lang ui : String) (resp : Option String)
    (active mem1 : Option String) : RouterResult :=
  match active with
  | none =>
    ⟨if lang = "arabic" then "أحتاج عقد لأشرحه. الصق العقد أو اطلب إنشاء عقد جديد."
      else "I need a contract to explain. Paste one or ask me to create a new contract.",
     none, "none", mem1⟩
  | some a => ⟨explain_clause ui resp, some a, "unchanged", mem1⟩

/-- The `review` branch of `get_chat_response`. -/
def routeReview (lang : String) (resp : Option String)
    (active mem1 : Option String) : RouterResult :=
  match active with
  | none =>
    ⟨if lang = "arabic" then "أحتاج عقد لأراجعه. الصق العقد أو اطلب إنشاء عقد جديد."
      else "I need a contract to review. Paste one or ask me to create a new contract.",
     none, "none", mem1⟩
  | some a => ⟨review_contract a resp, some a, "unchanged", mem1⟩

/-- The general-chat fallthrough branch of `get_chat_response`. -/
def routeChat (lang : String) (resp : Option String)
    (active mem1 : Option String) : RouterResult :=
  match resp with
  | none =>
    let m := if lang = "arabic" then "عذراً، خطأ في معالجة الطلب" else "Sorry, error processing request"
    (match active with
     | some a => ⟨m, some a, "unchanged", mem1⟩
     | none => ⟨m, none, "none", mem1⟩)
  | some content =>
    match active with
    | some a => ⟨pyStrip content, some a, "unchanged", mem1⟩
    | none => ⟨pyStrip content, none, "none", mem1⟩

/-- `LLMClient.get_chat_response`: `ui` the user utterance, `cc` the contract
supplied by the caller this turn, `mem` the stored artifact of the session,
`intentAction` the label produced by intent classification, `resp` the
completion backend's answer for the single operation this call runs. -/
def get_chat_response (ref : PyDateTime) (ui : String) (cc mem : Option String)
    (intentAction : String) (resp : Option String) : RouterResult :=
  let lang := detect_language ui
  let mem1 := syncMemory cc mem
  let active := activeContract cc mem
  if intentAction = "create" then routeCreate ref lang ui resp active mem1
  else if intentAction = "edit" then routeEdit ref lang ui resp active mem1
  else if intentAction = "explain" then routeExplain lang ui resp active mem1
  else if intentAction = "review" then routeReview lang resp active mem1
  else routeChat lang resp active mem1

/-- A fixed reference datetime used to close concrete statements
(2026-10-12, some time after midnight). -/
def refNow : PyDateTime := ⟨⟨2026, 10, 12⟩, true⟩

/-- A contract text containing one invalid standalone date and one
backward range of individually valid dates. -/
def mixedBadText : String :=
  "Lease from 01/01/2030 to 01/01/2026 signed 30/13/2026"

/-- A 240-character date-free text standing in for a successful long edit. -/
def longContract : String := String.mk (List.replicate 240 'X')

/-! ## Lemmas: everything `parse_date` returns is a constructible date -/

theorem datetimeOk_valid {y m d : Int} (h : datetimeOk y m d = true) :
    is_valid_date d m y = true := by
  unfold datetimeOk at h
  rw [Bool.and_eq_true, decide_eq_true_eq, decide_eq_true_eq] at h
  obtain ⟨⟨h1, h2, h3, h4, h5⟩, h6⟩ := h
  unfold is_valid_date
  rw [if_neg (not_not_intro ⟨h3, h4⟩), if_neg (not_not_intro ⟨h5, h6⟩)]
  unfold datetimeOk
  rw [Bool.and_eq_true, decide_eq_true_eq, decide_eq_true_eq]
  exact ⟨⟨h1, h2, h3, h4, h5⟩, h6⟩

theorem mkDate_valid {y m d : Int} {dt : PyDate} (h : mkDate y m d = some dt) :
    is_valid_date dt.day dt.month dt.year = true := by
  unfold mkDate at h
  split at h
  · cases h
    exact datetimeOk_valid (by assumption)
  · cases h

theorem runFormats_valid :
    ∀ (fs : List (List Char → Option (Int × Int × Int))) (cs : List Char) (dt : PyDate),
    runFormats fs cs = some dt → is_valid_date dt.day dt.month dt.year = true := by
  intro fs
  induction fs with
  | nil => intro cs dt h; simp [runFormats] at h
  | cons f fs ih =>
    intro cs dt h
    unfold runFormats at h
    split at h
    · split at h
      · cases h; exact mkDate_valid (by assumption)
      · exact ih cs dt h
    · exact ih cs dt h

theorem fbTry_valid {cs : List Char} {sep : Char} {dt : PyDate}
    (h : fbTry cs sep = FbStep.found dt) :
    is_valid_date dt.day dt.month dt.year = true := by
  unfold fbTry at h
  repeat' split at h
  all_goals first
    | (cases h; exact mkDate_valid (by assumption))
    | cases h

theorem manualFallback_valid {cs : List Char} {dt : PyDate}
    (h : manualFallback cs = some dt) :
    is_valid_date dt.day dt.month dt.year = true := by
  unfold manualFallback at h
  repeat' split at h
  all_goals first
    | (cases h; exact fbTry_valid (by assumption))
    | cases h

theorem parseStdFormats_valid {cs : List Char} {dt : PyDate}
    (h : parseStdFormats cs = some dt) :
    is_valid_date dt.day dt.month dt.year = true := by
  unfold parseStdFormats at h
  split at h
  · cases h; exact runFormats_valid _ _ _ (by assumption)
  · exact manualFallback_valid h

theorem parse_date_valid {s : String} {dt : PyDate}
    (h : parse_date s = some dt) :
    is_valid_date dt.day dt.month dt.year = true := by
  unfold parse_date at h
  dsimp only at h
  split at h
  · cases h
  · repeat' split at h
    all_goals first
      | (cases h; exact mkDate_valid (by assumption))
      | exact parseStdFormats_valid h

/-! ## Lemmas: distinguishing the error messages of `validate_date` -/

theorem str_ne_of_data12 {a b : String}
    (h : a.data[12]? ≠ b.data[12]?) : a ≠ b := by
  intro he
  exact h (by rw [he])

theorem formatMsg_ne_calendarMsg (s : String) :
    "Invalid date format: " ++ s ≠ "Invalid date: " ++ s ++ " (this date does not exist in the calendar)" := by
  apply str_ne_of_data12
  rw [String.data_append, String.data_append, String.data_append]
  rw [List.getElem?_append, if_pos (by decide)]
  rw [List.getElem?_append, if_pos (show 12 < ("Invalid date: ".data ++ s.data).length by
    rw [List.length_append]
    have h14 : ("Invalid date: ".data).length = 14 := by decide
    omega)]
  rw [List.getElem?_append, if_pos (by decide)]
  decide

theorem yearMsg_ne_calendarMsg (y : Int) (s : String) :
    "Year out of reasonable range: " ++ toString y ≠ "Invalid date: " ++ s ++ " (this date does not exist in the calendar)" := by
  intro he
  have h0 := congrArg (fun t => t.data[0]?) he
  simp only [String.data_append] at h0
  rw [List.getElem?_append, if_pos (by decide)] at h0
  rw [List.getElem?_append, if_pos (show 0 < ("Invalid date: ".data ++ s.data).length by
        rw [List.length_append]
        have h14 : ("Invalid date: ".data).length = 14 := by decide
        omega),
      List.getElem?_append, if_pos (by decide)] at h0
  exact absurd h0 (by decide)

theorem empty_ne_calendarMsg (s : String) :
    "" ≠ "Invalid date: " ++ s ++ " (this date does not exist in the calendar)" := by
  intro he
  have h0 := congrArg (fun t => t.data[0]?) he
  simp only [String.data_append] at h0
  rw [List.getElem?_append, if_pos (show 0 < ("Invalid date: ".data ++ s.data).length by
        rw [List.length_append]
        have h14 : ("Invalid date: ".data).length = 14 := by decide
        omega),
      List.getElem?_append, if_pos (by decide)] at h0
  exact absurd h0 (by decide)

/-! ## Claim theorems: C9, C4, C10 -/

/-- C9 counterexample: at year 10000 — divisible by 4 and by 400 — the claimed
equivalence fails, because `datetime` refuses years above 9999 and
`is_valid_date`'s final construction check therefore returns `false`. -/
theorem c9_cex_year10000 :
    ¬(is_valid_date 29 2 10000 = true ↔
      ((10000 : Int) % 4 = 0 ∧ ((10000 : Int) % 100 ≠ 0 ∨ (10000 : Int) % 400 = 0))) := by
  decide

/-- C9 (amended): for every year in `datetime`'s representable range
1..9999, `is_valid_date(29, 2, y)` is true iff `y` is divisible by 4 and
(not divisible by 100, or divisible by 400). -/
theorem c9_feb29_iff_leap (y : Int) (h1 : 1 ≤ y) (h2 : y ≤ 9999) :
    is_valid_date 29 2 y = true ↔ (y % 4 = 0 ∧ (y % 100 ≠ 0 ∨ y % 400 = 0)) := by
  have hleap : isleap y = true ↔ (y % 4 = 0 ∧ (y % 100 ≠ 0 ∨ y % 400 = 0)) := by
    unfold isleap
    simp [Bool.and_eq_true, Bool.or_eq_true, Bool.not_eq_true', decide_eq_true_eq,
      decide_eq_false_iff_not]
  unfold is_valid_date
  rw [if_neg (by norm_num)]
  by_cases hl : isleap y = true
  · have hdim : daysInMonth y 2 = 29 := by unfold daysInMonth; rw [if_pos rfl, if_pos hl]
    rw [hdim, if_neg (by norm_num)]
    unfold datetimeOk
    rw [hdim]
    simp only [Bool.and_eq_true, decide_eq_true_eq]
    constructor
    · intro _; exact hleap.mp hl
    · intro _; exact ⟨⟨h1, h2, by norm_num, by norm_num, by norm_num⟩, by norm_num⟩
  · have hdim : daysInMonth y 2 = 28 := by
      unfold daysInMonth
      rw [if_pos rfl, if_neg hl]
    rw [hdim, if_pos (by norm_num)]
    constructor
    · intro hcon; cases hcon
    · intro hdiv; exact absurd (hleap.mpr hdiv) hl

/-- C9 witness: 2024 is a leap year and the amended equivalence applies. -/
theorem c9_witness : is_valid_date 29 2 2024 = true :=
  (c9_feb29_iff_leap 2024 (by decide) (by decide)).mpr (by decide)

/-- C4 counterexample: on "30/02/2026" `validate_date` does return
`valid = false`, but its error message is the parse-failure message
"Invalid date format: 30/02/2026" — it does not mention a maximum valid
day, and neither the message nor any suggestion contains "28" (parsing
itself fails, so the suggestion helper can only offer the format hint). -/
theorem c4_cex_feb30_message :
    (validate_date "30/02/2026").1 = false ∧
    (validate_date "30/02/2026").2.1 = "Invalid date format: 30/02/2026" ∧
    strIn "28" (validate_date "30/02/2026").2.1 = false ∧
    (get_validation_suggestions refNow "30/02/2026").all (fun sug => !(strIn "28" sug)) = true := by
  refine ⟨by decide, by decide, by decide, by decide⟩

/-- C4 (amended): on "30/02/2026" `validate_date` returns `valid=false` with
the error "Invalid date format: 30/02/2026" (the impossible day makes every
parse attempt fail), and `get_validation_suggestions` — for any reference
date — returns only the format hint. -/
theorem c4_feb30_format_error (ref : PyDateTime) :
    validate_date "30/02/2026" = (false, "Invalid date format: 30/02/2026", none) ∧
    get_validation_suggestions ref "30/02/2026" = ["Use format DD/MM/YYYY (e.g., 23/02/2026)"] := by
  constructor
  · decide
  · unfold get_validation_suggestions
    rw [show parse_date "30/02/2026" = none from by decide]

/-- Shape of `validate_date` on a successful parse: the calendar branch is
skipped because the parsed date is always constructible. -/
theorem validate_date_some {s : String} {p : PyDate} (hp : parse_date s = some p) :
    validate_date s =
      if ¬(1900 ≤ p.year ∧ p.year ≤ 2100) then
        (false, "Year out of reasonable range: " ++ toString p.year, none)
      else (true, "", some p) := by
  unfold validate_date
  rw [hp]
  dsimp only
  rw [parse_date_valid hp, if_neg (by decide)]

/-- Shape of `validate_date` on a failed parse. -/
theorem validate_date_none {s : String} (hp : parse_date s = none) :
    validate_date s = (false, "Invalid date format: " ++ s, none) := by
  unfold validate_date
  rw [hp]

/-- C10: `parse_date` only ever returns calendrically constructible dates, so
the "this date does not exist in the calendar" branch of `validate_date` is
unreachable and every unparseable (in particular every calendrically
impossible) date string is rejected with the "Invalid date format" error. -/
theorem c10_parse_only_real_dates (s : String) :
    (∀ dt : PyDate, parse_date s = some dt → is_valid_date dt.day dt.month dt.year = true) ∧
    (validate_date s).2.1 ≠ "Invalid date: " ++ s ++ " (this date does not exist in the calendar)" ∧
    (parse_date s = none → validate_date s = (false, "Invalid date format: " ++ s, none)) := by
  refine ⟨fun dt h => parse_date_valid h, ?_, ?_⟩
  · cases hp : parse_date s with
    | none =>
      rw [validate_date_none hp]
      exact formatMsg_ne_calendarMsg s
    | some p =>
      rw [validate_date_some hp]
      split
      · exact yearMsg_ne_calendarMsg p.year s
      · exact empty_ne_calendarMsg s
  · intro hp
    exact validate_date_none hp

/-- C10 witness: a concrete parse and the validity it guarantees. -/
theorem c10_witness :
    parse_date "23/02/2026" = some ⟨2026, 2, 23⟩ ∧ is_valid_date 23 2 2026 = true :=
  ⟨by decide, (c10_parse_only_real_dates "23/02/2026").1 ⟨2026, 2, 23⟩ (by decide)⟩

/-! ## Lemmas: the ordinal respects the lexicographic date order -/

theorem dateLt_asymm {a b : PyDate} (h : dateLt a b) : ¬ dateLe b a := by
  cases a; cases b
  unfold dateLt dateLe dateLt at *
  simp only [PyDate.mk.injEq] at *
  omega

theorem daysInMonth_pos (y m : Int) : 0 < daysInMonth y m := by
  unfold daysInMonth
  split_ifs <;> norm_num

theorem dbmAux_nonneg (y : Int) (n : Nat) : 0 ≤ dbmAux y n := by
  induction n with
  | zero => simp [dbmAux]
  | succ n ih =>
    have := daysInMonth_pos y ((n : Int) + 1)
    unfold dbmAux
    omega

theorem dbmAux_succ (y : Int) (n : Nat) :
    dbmAux y (n + 1) = dbmAux y n + daysInMonth y ((n : Int) + 1) := rfl

theorem dbmAux_mono (y : Int) {n1 n2 : Nat} (h : n1 ≤ n2) :
    dbmAux y n1 ≤ dbmAux y n2 := by
  induction h with
  | refl => exact le_refl _
  | @step k hk ih =>
    show dbmAux y n1 ≤ dbmAux y (k + 1)
    have := daysInMonth_pos y ((k : Int) + 1)
    have hs := dbmAux_succ y k
    omega

theorem dbmAux_twelve (y : Int) : dbmAux y 12 = daysInYear y := by
  have e1 : daysInMonth y 1 = 31 := by norm_num [daysInMonth]
  have e3 : daysInMonth y 3 = 31 := by norm_num [daysInMonth]
  have e4 : daysInMonth y 4 = 30 := by norm_num [daysInMonth]
  have e5 : daysInMonth y 5 = 31 := by norm_num [daysInMonth]
  have e6 : daysInMonth y 6 = 30 := by norm_num [daysInMonth]
  have e7 : daysInMonth y 7 = 31 := by norm_num [daysInMonth]
  have e8 : daysInMonth y 8 = 31 := by norm_num [daysInMonth]
  have e9 : daysInMonth y 9 = 30 := by norm_num [daysInMonth]
  have e10 : daysInMonth y 10 = 31 := by norm_num [daysInMonth]
  have e11 : daysInMonth y 11 = 30 := by norm_num [daysInMonth]
  have e12 : daysInMonth y 12 = 31 := by norm_num [daysInMonth]
  have e2 : daysInMonth y 2 = (if isleap y then 29 else 28) := by norm_num [daysInMonth]
  have expand : dbmAux y 12 =
      dbmAux y 0 + daysInMonth y 1 + daysInMonth y 2 + daysInMonth y 3 + daysInMonth y 4 +
      daysInMonth y 5 + daysInMonth y 6 + daysInMonth y 7 + daysInMonth y 8 + daysInMonth y 9 +
      daysInMonth y 10 + daysInMonth y 11 + daysInMonth y 12 := by
    show dbmAux y (11 + 1) = _
    rw [dbmAux_succ]
    show dbmAux y (10 + 1) + _ = _
    rw [dbmAux_succ]
    show dbmAux y (9 + 1) + _ + _ = _
    rw [dbmAux_succ]
    show dbmAux y (8 + 1) + _ + _ + _ = _
    rw [dbmAux_succ]
    show dbmAux y (7 + 1) + _ + _ + _ + _ = _
    rw [dbmAux_succ]
    show dbmAux y (6 + 1) + _ + _ + _ + _ + _ = _
    rw [dbmAux_succ]
    show dbmAux y (5 + 1) + _ + _ + _ + _ + _ + _ = _
    rw [dbmAux_succ]
    show dbmAux y (4 + 1) + _ + _ + _ + _ + _ + _ + _ = _
    rw [dbmAux_succ]
    show dbmAux y (3 + 1) + _ + _ + _ + _ + _ + _ + _ + _ = _
    rw [dbmAux_succ]
    show dbmAux y (2 + 1) + _ + _ + _ + _ + _ + _ + _ + _ + _ = _
    rw [dbmAux_succ]
    show dbmAux y (1 + 1) + _ + _ + _ + _ + _ + _ + _ + _ + _ + _ = _
    rw [dbmAux_succ]
    show dbmAux y (0 + 1) + _ + _ + _ + _ + _ + _ + _ + _ + _ + _ + _ = _
    rw [dbmAux_succ]
    norm_num
  rw [expand, e1, e2, e3, e4, e5, e6, e7, e8, e9, e10, e11, e12]
  unfold daysInYear
  by_cases hl : isleap y = true
  · rw [if_pos hl, if_pos hl]; simp [dbmAux]
  · rw [if_neg hl, if_neg hl]; simp [dbmAux]

theorem daysInYear_pos (y : Int) : 0 < daysInYear y := by
  unfold daysInYear; split <;> norm_num

theorem dby_step (y : Int) :
    daysBeforeYear (y + 1) = daysBeforeYear y + daysInYear y := by
  unfold daysBeforeYear daysInYear
  by_cases hl : isleap y = true
  · rw [if_pos hl]
    unfold isleap at hl
    simp only [Bool.and_eq_true, Bool.or_eq_true, Bool.not_eq_true', decide_eq_true_eq,
      decide_eq_false_iff_not] at hl
    omega
  · rw [if_neg hl]
    unfold isleap at hl
    simp only [Bool.and_eq_true, Bool.or_eq_true, Bool.not_eq_true', decide_eq_true_eq,
      decide_eq_false_iff_not, not_and, not_or] at hl
    omega

theorem dby_mono {u v : Int} (h : u ≤ v) :
    daysBeforeYear u ≤ daysBeforeYear v := by
  refine @Int.le_induction (fun x => daysBeforeYear u ≤ daysBeforeYear x) u (le_refl _) ?_ v h
  intro n hn ih
  have := daysInYear_pos n
  rw [dby_step]
  omega

/-- For a valid calendar date, the month-and-day part of the ordinal lies in
`[1, daysInYear]`. -/
theorem monthday_bounds {y m d : Int} (hm1 : 1 ≤ m) (hm2 : m ≤ 12)
    (hd1 : 1 ≤ d) (hd2 : d ≤ daysInMonth y m) :
    1 ≤ dbmAux y (m - 1).toNat + d ∧ dbmAux y (m - 1).toNat + d ≤ daysInYear y := by
  have h0 : 0 ≤ dbmAux y (m - 1).toNat := dbmAux_nonneg y _
  constructor
  · omega
  · have hstep : dbmAux y ((m - 1).toNat + 1) =
        dbmAux y (m - 1).toNat + daysInMonth y m := by
      rw [dbmAux_succ]
      congr 1
      congr 1
      omega
    have hmono : dbmAux y ((m - 1).toNat + 1) ≤ dbmAux y 12 := dbmAux_mono y (by omega)
    rw [dbmAux_twelve] at hmono
    omega

theorem valid_date_elim {d m y : Int} (h : is_valid_date d m y = true) :
    1 ≤ m ∧ m ≤ 12 ∧ 1 ≤ d ∧ d ≤ daysInMonth y m ∧ 1 ≤ y ∧ y ≤ 9999 := by
  unfold is_valid_date at h
  split at h
  · cases h
  · split at h
    · cases h
    · unfold datetimeOk at h
      rw [Bool.and_eq_true, decide_eq_true_eq, decide_eq_true_eq] at h
      obtain ⟨⟨h1, h2, h3, h4, h5⟩, h6⟩ := h
      exact ⟨h3, h4, h5, h6, h1, h2⟩

/-- Lexicographically larger valid dates have strictly larger ordinals. -/
theorem toOrdinal_lt {a b : PyDate}
    (ha : is_valid_date a.day a.month a.year = true)
    (hb : is_valid_date b.day b.month b.year = true)
    (h : dateLt a b) : toOrdinal a < toOrdinal b := by
  have hae := valid_date_elim ha
  have hbe := valid_date_elim hb
  obtain ⟨ham1, ham2, had1, had2, hay1, hay2⟩ := hae
  obtain ⟨hbm1, hbm2, hbd1, hbd2, hby1, hby2⟩ := hbe
  obtain ⟨hA1, hA2⟩ := monthday_bounds ham1 ham2 had1 had2
  obtain ⟨hB1, hB2⟩ := monthday_bounds hbm1 hbm2 hbd1 hbd2
  unfold toOrdinal
  rcases h with hy | ⟨hy, hm | ⟨hm, hd⟩⟩
  · -- strictly smaller year
    have hstep : daysBeforeYear (a.year + 1) = daysBeforeYear a.year + daysInYear a.year :=
      dby_step a.year
    have hmono : daysBeforeYear (a.year + 1) ≤ daysBeforeYear b.year := dby_mono (by omega)
    omega
  · -- same year, strictly smaller month
    rw [hy]
    have hstep : dbmAux b.year ((a.month - 1).toNat + 1) =
        dbmAux b.year (a.month - 1).toNat + daysInMonth b.year a.month := by
      rw [dbmAux_succ]
      congr 1
      congr 1
      omega
    have hmono : dbmAux b.year ((a.month - 1).toNat + 1) ≤ dbmAux b.year (b.month - 1).toNat :=
      dbmAux_mono b.year (by omega)
    have had2' : a.day ≤ daysInMonth b.year a.month := by rw [← hy]; exact had2
    omega
  · -- same year and month, strictly smaller day
    rw [hy, hm]
    omega

/-! ## Lemmas: eliminating a successful `validate_date` -/

theorem validate_date_true_parse {s msg : String} {p : PyDate}
    (h : validate_date s = (true, msg, some p)) : parse_date s = some p := by
  rcases hq : parse_date s with _ | q
  · rw [validate_date_none hq] at h; simp at h
  · rw [validate_date_some hq] at h
    split at h
    · simp at h
    · simp only [Prod.mk.injEq] at h
      obtain ⟨-, -, h3⟩ := h
      exact h3

theorem validate_date_true_elim {s : String} {p : PyDate}
    (h : validate_date s = (true, "", some p)) :
    parse_date s = some p ∧ is_valid_date p.day p.month p.year = true ∧
    1900 ≤ p.year ∧ p.year ≤ 2100 := by
  have hp := validate_date_true_parse h
  rw [validate_date_some hp] at h
  split at h
  · simp at h
  · rename_i hyr
    push_neg at hyr
    exact ⟨hp, parse_date_valid hp, hyr.1, hyr.2⟩

/-! ## Claim theorems: C6 -/

/-- C6 counterexample: "01/01/2020" and "01/01/2021" both validate and the
start is strictly before the end, yet `validate_date_range` with the default
parameters fails at the reference date 2026-10-12, because the default
`allow_past_start = false` also requires the start not to lie in the past. -/
theorem c6_cex_past_start :
    validate_date "01/01/2020" = (true, "", some ⟨2020, 1, 1⟩) ∧
    validate_date "01/01/2021" = (true, "", some ⟨2021, 1, 1⟩) ∧
    dateLt ⟨2020, 1, 1⟩ ⟨2021, 1, 1⟩ ∧
    (validate_date_range refNow "01/01/2020" "01/01/2021" false 1 36500).1 = false := by
  refine ⟨by decide, by decide, by decide, by decide⟩

/-- C6 (amended): (i) for strings validating to dates with `start < end`,
where additionally the start is not before the reference datetime and the
duration is at most 36500 days, `validate_date_range` with the default
parameters succeeds; (ii) for all parseable pairs with `end ≤ start` it fails
regardless of `allow_past_start` and of the duration bounds. -/
theorem c6_range_ordering (ref : PyDateTime) (s e : String) (sd ed : PyDate) :
    (validate_date s = (true, "", some sd) → validate_date e = (true, "", some ed) →
      ¬ dtLtRef sd ref → dateLt sd ed → toOrdinal ed - toOrdinal sd ≤ 36500 →
      validate_date_range ref s e false 1 36500 = (true, "")) ∧
    (parse_date s = some sd → parse_date e = some ed → dateLe ed sd →
      ∀ (allow : Bool) (minD maxD : Int),
        (validate_date_range ref s e allow minD maxD).1 = false) := by
  constructor
  · intro hs he hpast hlt hdur
    obtain ⟨hsp, hsv, -, -⟩ := validate_date_true_elim hs
    obtain ⟨hep, hev, -, -⟩ := validate_date_true_elim he
    have hord : toOrdinal sd < toOrdinal ed := toOrdinal_lt hsv hev hlt
    unfold validate_date_range
    rw [hs, he]
    dsimp only
    rw [if_neg (fun hc => hpast hc.2)]
    rw [if_neg (dateLt_asymm hlt)]
    rw [if_neg (by omega)]
    rw [if_neg (by omega)]
  · intro hsp hep hle allow minD maxD
    unfold validate_date_range
    cases hvs : validate_date s with
    | mk b rest =>
      obtain ⟨msg, p?⟩ := rest
      cases b with
      | false => rfl
      | true =>
        cases p? with
        | none => rfl
        | some sd' =>
          have h1 : parse_date s = some sd' := validate_date_true_parse hvs
          have hsd' : sd' = sd := by
            rw [h1] at hsp
            exact Option.some.inj hsp
          subst hsd'
          dsimp only
          cases hve : validate_date e with
          | mk b2 rest2 =>
            obtain ⟨msg2, p2?⟩ := rest2
            cases b2 with
            | false => rfl
            | true =>
              cases p2? with
              | none => rfl
              | some ed' =>
                have h2 : parse_date e = some ed' := validate_date_true_parse hve
                have hed' : ed' = ed := by
                  rw [h2] at hep
                  exact Option.some.inj hep
                subst hed'
                dsimp only
                rw [if_pos hle]
                split <;> rfl

/-- C6 witness: a concrete in-range forward pair succeeds, a concrete
backward pair fails even with permissive parameters. -/
theorem c6_witness :
    validate_date_range refNow "01/11/2026" "01/11/2027" false 1 36500 = (true, "") ∧
    (validate_date_range refNow "01/11/2027" "01/11/2026" true 0 99999).1 = false := by
  constructor
  · exact (c6_range_ordering refNow "01/11/2026" "01/11/2027" ⟨2026, 11, 1⟩ ⟨2027, 11, 1⟩).1
      (by decide) (by decide) (by decide) (by decide) (by decide)
  · exact (c6_range_ordering refNow "01/11/2027" "01/11/2026" ⟨2027, 11, 1⟩ ⟨2026, 11, 1⟩).2
      (by decide) (by decide) (by decide) true 0 99999

/-! ## Lemmas: membership in a `"; ".join` is visible as a substring -/

theorem listPre_self_append (n t : List Char) : listPre n (n ++ t) = true := by
  induction n with
  | nil => rfl
  | cons a p ih => simp [listPre, ih]

theorem listInfixB_of_pre {n l : List Char} (h : listPre n l = true) :
    listInfixB n l = true := by
  cases l with
  | nil =>
    cases n with
    | nil => rfl
    | cons a p => cases h
  | cons c t => simp [listInfixB, h]

theorem listInfixB_append_left (pre : List Char) {n h : List Char}
    (hh : listInfixB n h = true) : listInfixB n (pre ++ h) = true := by
  induction pre with
  | nil => exact hh
  | cons c t ih => simp [listInfixB, ih]

theorem strIn_self_append (e t : String) : strIn e (e ++ t) = true := by
  unfold strIn
  rw [String.data_append]
  exact listInfixB_of_pre (listPre_self_append e.data t.data)

theorem strIn_self (e : String) : strIn e e = true := by
  have h := strIn_self_append e ""
  simpa using h

theorem strIn_append_left (pre : String) {n h : String}
    (hh : strIn n h = true) : strIn n (pre ++ h) = true := by
  unfold strIn
  rw [String.data_append]
  exact listInfixB_append_left pre.data hh

theorem mem_joinSemi {l : List String} {e : String} (h : e ∈ l) :
    strIn e (joinSemi l) = true := by
  induction l with
  | nil => cases h
  | cons x xs ih =>
    cases xs with
    | nil =>
      rcases List.mem_singleton.mp h with rfl
      exact strIn_self e
    | cons y ys =>
      rcases List.mem_cons.mp h with rfl | hm
      · show strIn e (e ++ "; " ++ joinSemi (y :: ys)) = true
        rw [String.append_assoc]
        exact strIn_self_append e _
      · show strIn e (x ++ "; " ++ joinSemi (y :: ys)) = true
        rw [String.append_assoc]
        exact strIn_append_left x (strIn_append_left "; " (ih hm))

/-! ## Claim theorems: C5 -/

/-- C5 counterexample: in a text holding one malformed standalone date and one
backward range of individually valid dates, the scan fails — but the combined
message is only the standalone-date error: the early return skips the range
loop, so the invalid range ("01/01/2030" to "01/01/2026", which range
validation rejects) is not reported. -/
theorem c5_cex_range_not_reported :
    (extract_and_validate_dates refNow mixedBadText false).1 = false ∧
    "End date 01/01/2026 must be after start date 01/01/2030. The lease period goes backward in time."
      ∈ range_scan refNow mixedBadText false ∧
    strIn "End date 01/01/2026 must be after start date 01/01/2030. The lease period goes backward in time."
      (extract_and_validate_dates refNow mixedBadText false).2.1 = false := by
  refine ⟨by decide, by decide, by decide⟩

/-- C5 (amended): the scan over individual dates is exhaustive — when any
individual date is invalid, the combined message is the join of all
individual-date errors and contains every one of them; range phrases are
scanned (likewise exhaustively, every range error joined and reported) only
when every individual date is valid, because of the early return. -/
theorem c5_scan_exhaustive_per_phase (ref : PyDateTime) (text : String) (allow : Bool) :
    ((individual_scan text).2 ≠ [] →
      extract_and_validate_dates ref text allow =
        (false, joinSemi (individual_scan text).2, (individual_scan text).1) ∧
      ∀ e ∈ (individual_scan text).2,
        strIn e (extract_and_validate_dates ref text allow).2.1 = true) ∧
    ((individual_scan text).2 = [] → range_scan ref text allow ≠ [] →
      extract_and_validate_dates ref text allow =
        (false, joinSemi (range_scan ref text allow), (individual_scan text).1) ∧
      ∀ e ∈ range_scan ref text allow,
        strIn e (extract_and_validate_dates ref text allow).2.1 = true) := by
  constructor
  · intro hne
    have hr : extract_and_validate_dates ref text allow =
        (false, joinSemi (individual_scan text).2, (individual_scan text).1) := by
      unfold extract_and_validate_dates
      rw [if_pos hne]
    refine ⟨hr, fun e he => ?_⟩
    rw [hr]
    exact mem_joinSemi he
  · intro hemp hne
    have hr : extract_and_validate_dates ref text allow =
        (false, joinSemi (range_scan ref text allow), (individual_scan text).1) := by
      unfold extract_and_validate_dates
      rw [if_neg (not_not_intro hemp), if_pos hne]
    refine ⟨hr, fun e he => ?_⟩
    rw [hr]
    exact mem_joinSemi he

/-- C5 witness: the mixed text triggers the individual-error phase and its
combined message matches the join of the individual errors. -/
theorem c5_witness :
    extract_and_validate_dates refNow mixedBadText false =
      (false, joinSemi (individual_scan mixedBadText).2, (individual_scan mixedBadText).1) :=
  ((c5_scan_exhaustive_per_phase refNow mixedBadText false).1 (by decide)).1

/-! ## Lemmas: the router's error-message sniffing and the operations'
possible return values -/

theorem detect_language_cases (s : String) :
    detect_language s = "arabic" ∨ detect_language s = "english" := by
  unfold detect_language
  dsimp only
  split
  · right; rfl
  · split
    · right; rfl
    · split
      · left; rfl
      · right; rfl

theorem listPre_append {p l : List Char} (t : List Char) (h : listPre p l = true) :
    listPre p (l ++ t) = true := by
  induction p generalizing l with
  | nil => rfl
  | cons a p ih =>
    cases l with
    | nil => cases h
    | cons b l2 =>
      simp only [listPre, Bool.and_eq_true] at h
      simp only [List.cons_append, listPre, Bool.and_eq_true]
      exact ⟨h.1, ih h.2⟩

theorem pyStartsWith_append_of (a b pre : String) (h : pyStartsWith a pre = true) :
    pyStartsWith (a ++ b) pre = true := by
  unfold pyStartsWith at *
  rw [String.data_append]
  exact listPre_append b.data h

theorem warn_prefix_wrap (head mid tail : String) (h : pyStartsWith head "⚠️" = true) :
    pyStartsWith (head ++ mid ++ tail) "⚠️" = true :=
  pyStartsWith_append_of _ _ _ (pyStartsWith_append_of _ _ _ h)

theorem dateAlert_warn (lang em : String) : pyStartsWith (dateAlert lang em) "⚠️" = true := by
  unfold dateAlert
  split
  · exact warn_prefix_wrap _ _ _ (by decide)
  · exact warn_prefix_wrap _ _ _ (by decide)

theorem isErr_of_warn {s : String} (h : pyStartsWith s "⚠️" = true) :
    isErrorMessage s = true := by
  unfold isErrorMessage
  rw [h]
  rfl

theorem vdit_cases (ref : PyDateTime) (t lang : String) :
    (validate_dates_in_text ref t lang = (true, none) ∧
      (extract_and_validate_dates ref t false).1 = true) ∨
    (∃ em, validate_dates_in_text ref t lang = (false, some (dateAlert lang em))) := by
  unfold validate_dates_in_text
  dsimp only
  split
  · right; exact ⟨_, rfl⟩
  · rename_i hcond
    left
    refine ⟨rfl, ?_⟩
    cases hb : (extract_and_validate_dates ref t false).1
    · exact absurd hb hcond
    · rfl

theorem scan_generate_fallback (ref : PyDateTime) :
    (extract_and_validate_dates ref "Sorry, error generating contract." false).1 = true := rfl

/-- A non-error result of `generate_contract` passed the date scan (the only
non-error, non-fallback return is the validated generated text; the English
fallback contains no dates and scans clean as well). -/
theorem generate_not_error_scan (ref : PyDateTime) (ui : String) (resp : Option String)
    (herr : isErrorMessage (generate_contract ref ui resp) = false) :
    (extract_and_validate_dates ref (generate_contract ref ui resp) false).1 = true := by
  unfold generate_contract at herr ⊢
  dsimp only at herr ⊢
  rcases vdit_cases ref ui (detect_language ui) with ⟨hv, -⟩ | ⟨em, hv⟩
  · rw [hv] at herr ⊢
    dsimp only at herr ⊢
    cases resp with
    | none =>
      dsimp only at herr ⊢
      rcases detect_language_cases ui with hl | hl
      · rw [hl] at herr
        rw [if_pos rfl] at herr
        exact absurd herr (by decide)
      · rw [hl] at herr ⊢
        rw [if_neg (by decide)] at herr ⊢
        exact scan_generate_fallback ref
    | some content =>
      dsimp only at herr ⊢
      rcases vdit_cases ref (pyStrip content) (detect_language ui) with ⟨hv2, hs2⟩ | ⟨em2, hv2⟩
      · rw [hv2] at herr ⊢
        exact hs2
      · rw [hv2] at herr ⊢
        dsimp only at herr
        rcases detect_language_cases ui with hl | hl <;> rw [hl] at herr
        · rw [if_pos rfl] at herr
          rw [isErr_of_warn (warn_prefix_wrap _ _ _ (by decide))] at herr
          cases herr
        · rw [if_neg (by decide)] at herr
          rw [isErr_of_warn (warn_prefix_wrap _ _ _ (by decide))] at herr
          cases herr
  · rw [hv] at herr
    dsimp only at herr
    rw [isErr_of_warn (dateAlert_warn _ em)] at herr
    cases herr

/-- A non-error result of `edit_contract` of at least the minimum contract
length passed the date scan (both backend-failure fallbacks are far shorter
than 200 characters). -/
theorem edit_not_short_scan (ref : PyDateTime) (a ui : String) (resp : Option String)
    (herr : isErrorMessage (edit_contract ref a ui resp) = false)
    (hlen : MIN_CONTRACT_LENGTH ≤ (pyStrip (edit_contract ref a ui resp)).length) :
    (extract_and_validate_dates ref (edit_contract ref a ui resp) false).1 = true := by
  unfold edit_contract at herr hlen ⊢
  dsimp only at herr hlen ⊢
  rcases vdit_cases ref ui (detect_language ui) with ⟨hv, -⟩ | ⟨em, hv⟩
  · rw [hv] at herr hlen ⊢
    dsimp only at herr hlen ⊢
    cases resp with
    | none =>
      dsimp only at herr hlen ⊢
      rcases detect_language_cases ui with hl | hl
      · rw [hl] at hlen
        rw [if_pos rfl] at hlen
        exact absurd hlen (by decide)
      · rw [hl] at hlen
        rw [if_neg (by decide)] at hlen
        exact absurd hlen (by decide)
    | some content =>
      dsimp only at herr hlen ⊢
      rcases vdit_cases ref (pyStrip content) (detect_language ui) with ⟨hv2, hs2⟩ | ⟨em2, hv2⟩
      · rw [hv2] at herr ⊢
        exact hs2
      · rw [hv2] at herr ⊢
        dsimp only at herr
        rcases detect_language_cases ui with hl | hl <;> rw [hl] at herr
        · rw [if_pos rfl] at herr
          rw [isErr_of_warn (warn_prefix_wrap _ _ _ (by decide))] at herr
          cases herr
        · rw [if_neg (by decide)] at herr
          rw [isErr_of_warn (warn_prefix_wrap _ _ _ (by decide))] at herr
          cases herr
  · rw [hv] at herr
    dsimp only at herr
    rw [isErr_of_warn (dateAlert_warn _ em)] at herr
    cases herr

/-! ## Lemmas: per-branch behaviour of the router -/

theorem routeCreate_updated (ref : PyDateTime) (lang ui : String) (resp : Option String)
    (active mem1 : Option String)
    (h : (routeCreate ref lang ui resp active mem1).action = "updated") :
    ∃ c, (routeCreate ref lang ui resp active mem1).contract = some c ∧
         (routeCreate ref lang ui resp active mem1).memOut = some c ∧
         (extract_and_validate_dates ref c false).1 = true := by
  unfold routeCreate at h ⊢
  dsimp only at h ⊢
  by_cases h1 : generate_contract ref ui resp ≠ "" ∧
      isErrorMessage (generate_contract ref ui resp) = true
  · rw [if_pos h1] at h ⊢
    cases active <;> simp at h
  · rw [if_neg h1] at h ⊢
    by_cases h2 : generate_contract ref ui resp ≠ ""
    · rw [if_pos h2] at h ⊢
      refine ⟨generate_contract ref ui resp, rfl, rfl, ?_⟩
      have herr : isErrorMessage (generate_contract ref ui resp) = false := by
        cases hb : isErrorMessage (generate_contract ref ui resp)
        · rfl
        · exact absurd ⟨h2, hb⟩ h1
      exact generate_not_error_scan ref ui resp herr
    · rw [if_neg h2] at h
      cases active <;> simp at h

theorem routeEdit_updated (ref : PyDateTime) (lang ui : String) (resp : Option String)
    (active mem1 : Option String)
    (h : (routeEdit ref lang ui resp active mem1).action = "updated") :
    ∃ c, (routeEdit ref lang ui resp active mem1).contract = some c ∧
         (routeEdit ref lang ui resp active mem1).memOut = some c ∧
         (extract_and_validate_dates ref c false).1 = true := by
  unfold routeEdit at h ⊢
  cases active with
  | none => simp at h
  | some a =>
    dsimp only at h ⊢
    by_cases h1 : edit_contract ref a ui resp ≠ "" ∧
        isErrorMessage (edit_contract ref a ui resp) = true
    · rw [if_pos h1] at h
      simp at h
    · rw [if_neg h1] at h ⊢
      by_cases h2 : edit_contract ref a ui resp ≠ "" ∧
          MIN_CONTRACT_LENGTH ≤ (pyStrip (edit_contract ref a ui resp)).length ∧
          edit_contract ref a ui resp ≠ a
      · rw [if_pos h2] at h ⊢
        refine ⟨edit_contract ref a ui resp, rfl, rfl, ?_⟩
        have herr : isErrorMessage (edit_contract ref a ui resp) = false := by
          cases hb : isErrorMessage (edit_contract ref a ui resp)
          · rfl
          · exact absurd ⟨h2.1, hb⟩ h1
        exact edit_not_short_scan ref a ui resp herr h2.2.1
      · rw [if_neg h2] at h
        simp at h

theorem routeExplain_not_updated (lang ui : String) (resp : Option String)
    (active mem1 : Option String) : (routeExplain lang ui resp active mem1).action ≠ "updated" := by
  unfold routeExplain
  cases active <;> simp

theorem routeReview_not_updated (lang : String) (resp : Option String)
    (active mem1 : Option String) : (routeReview lang resp active mem1).action ≠ "updated" := by
  unfold routeReview
  cases active <;> simp

theorem routeChat_not_updated (lang : String) (resp : Option String)
    (active mem1 : Option String) : (routeChat lang resp active mem1).action ≠ "updated" := by
  unfold routeChat
  cases resp <;> cases active <;> simp

/-! ## Claim theorems: C1 -/

/-- C1: whatever the intent label and whatever the backend returned, whenever
the router's action tag is "updated" the returned contract is exactly the
newly stored artifact and it passes the date scan
(`extract_and_validate_dates` reports `all_valid` on it). -/
theorem c1_updated_implies_date_valid (ref : PyDateTime) (ui : String) (cc mem : Option String)
    (ia : String) (resp : Option String)
    (h : (get_chat_response ref ui cc mem ia resp).action = "updated") :
    ∃ c, (get_chat_response ref ui cc mem ia resp).contract = some c ∧
         (get_chat_response ref ui cc mem ia resp).memOut = some c ∧
         (extract_and_validate_dates ref c false).1 = true := by
  unfold get_chat_response at h ⊢
  dsimp only at h ⊢
  split_ifs at h ⊢
  · exact routeCreate_updated ref _ ui resp _ _ h
  · exact routeEdit_updated ref _ ui resp _ _ h
  · exact absurd h (routeExplain_not_updated _ ui resp _ _)
  · exact absurd h (routeReview_not_updated _ resp _ _)
  · exact absurd h (routeChat_not_updated _ resp _ _)

/-- C1 witness: a successful long edit is tagged "updated", is stored, and
scans clean. -/
theorem c1_witness :
    ∃ c, (get_chat_response refNow "please edit" none (some "OLD") "edit" (some longContract)).contract = some c ∧
         (get_chat_response refNow "please edit" none (some "OLD") "edit" (some longContract)).memOut = some c ∧
         (extract_and_validate_dates refNow c false).1 = true :=
  c1_updated_implies_date_valid refNow "please edit" none (some "OLD") "edit" (some longContract)
    (by decide)

/-! ## Claim theorems: C2 -/

/-- C2: the claim is violated by the code.  With English input, `create`
intent and a failed completion call, `generate_contract` returns the English
fallback "Sorry, error generating contract.", which neither starts with the
warning marker nor contains the Arabic error token — so the router mistakes
it for a valid contract: it reports success, stores the fallback string as
the session artifact (discarding the prior artifact "PRIOR ARTIFACT"), and
tags the result "updated".  (The module's own header says "Preserve
contracts on failures"; the Arabic path does, the English path does not.) -/
theorem c2_bug_english_create_failure :
    get_chat_response refNow "Please create a new lease contract" none (some "PRIOR ARTIFACT")
      "create" none =
    ⟨"Contract created successfully ✓", some "Sorry, error generating contract.", "updated",
      some "Sorry, error generating contract."⟩ ∧
    get_chat_response refNow "أنشئ عقد إيجار جديد" none (some "PRIOR ARTIFACT") "create" none =
    ⟨"عذراً، حدث خطأ في إنشاء العقد.", some "PRIOR ARTIFACT", "unchanged", some "PRIOR ARTIFACT"⟩ := by
  refine ⟨by decide, by decide⟩

/-! ## Lemmas: per-branch form of the Routing Result invariant -/

theorem routeCreate_c3 (ref : PyDateTime) (lang ui : String) (resp : Option String)
    (active mem1 : Option String) :
    ((routeCreate ref lang ui resp active mem1).action = "none" →
      (routeCreate ref lang ui resp active mem1).contract = none) ∧
    ((routeCreate ref lang ui resp active mem1).action = "updated" →
      ∃ c, (routeCreate ref lang ui resp active mem1).contract = some c ∧
           (routeCreate ref lang ui resp active mem1).memOut = some c) ∧
    ((routeCreate ref lang ui resp active mem1).action = "unchanged" →
      ∃ a, active = some a ∧ (routeCreate ref lang ui resp active mem1).contract = some a ∧
           (routeCreate ref lang ui resp active mem1).memOut = mem1) := by
  unfold routeCreate
  dsimp only
  by_cases h1 : generate_contract ref ui resp ≠ "" ∧
      isErrorMessage (generate_contract ref ui resp) = true
  · rw [if_pos h1]
    cases active with
    | some a => exact ⟨fun hx => by simp at hx, fun hx => by simp at hx, fun _ => ⟨a, rfl, rfl, rfl⟩⟩
    | none => exact ⟨fun _ => rfl, fun hx => by simp at hx, fun hx => by simp at hx⟩
  · rw [if_neg h1]
    by_cases h2 : generate_contract ref ui resp ≠ ""
    · rw [if_pos h2]
      exact ⟨fun hx => by simp at hx,
        fun _ => ⟨generate_contract ref ui resp, rfl, rfl⟩,
        fun hx => by simp at hx⟩
    · rw [if_neg h2]
      cases active with
      | some a => exact ⟨fun hx => by simp at hx, fun hx => by simp at hx, fun _ => ⟨a, rfl, rfl, rfl⟩⟩
      | none => exact ⟨fun _ => rfl, fun hx => by simp at hx, fun hx => by simp at hx⟩

theorem routeEdit_c3 (ref : PyDateTime) (lang ui : String) (resp : Option String)
    (active mem1 : Option String) :
    ((routeEdit ref lang ui resp active mem1).action = "none" →
      (routeEdit ref lang ui resp active mem1).contract = none) ∧
    ((routeEdit ref lang ui resp active mem1).action = "updated" →
      ∃ c, (routeEdit ref lang ui resp active mem1).contract = some c ∧
           (routeEdit ref lang ui resp active mem1).memOut = some c) ∧
    ((routeEdit ref lang ui resp active mem1).action = "unchanged" →
      ∃ a, active = some a ∧ (routeEdit ref lang ui resp active mem1).contract = some a ∧
           (routeEdit ref lang ui resp active mem1).memOut = mem1) := by
  unfold routeEdit
  cases active with
  | none => exact ⟨fun _ => rfl, fun hx => by simp at hx, fun hx => by simp at hx⟩
  | some a =>
    dsimp only
    by_cases h1 : edit_contract ref a ui resp ≠ "" ∧
        isErrorMessage (edit_contract ref a ui resp) = true
    · rw [if_pos h1]
      exact ⟨fun hx => by simp at hx, fun hx => by simp at hx, fun _ => ⟨a, rfl, rfl, rfl⟩⟩
    · rw [if_neg h1]
      by_cases h2 : edit_contract ref a ui resp ≠ "" ∧
          MIN_CONTRACT_LENGTH ≤ (pyStrip (edit_contract ref a ui resp)).length ∧
          edit_contract ref a ui resp ≠ a
      · rw [if_pos h2]
        exact ⟨fun hx => by simp at hx,
          fun _ => ⟨edit_contract ref a ui resp, rfl, rfl⟩,
          fun hx => by simp at hx⟩
      · rw [if_neg h2]
        exact ⟨fun hx => by simp at hx, fun hx => by simp at hx, fun _ => ⟨a, rfl, rfl, rfl⟩⟩

theorem routeExplain_c3 (lang ui : String) (resp : Option String)
    (active mem1 : Option String) :
    ((routeExplain lang ui resp active mem1).action = "none" →
      (routeExplain lang ui resp active mem1).contract = none) ∧
    ((routeExplain lang ui resp active mem1).action = "updated" →
      ∃ c, (routeExplain lang ui resp active mem1).contract = some c ∧
           (routeExplain lang ui resp active mem1).memOut = some c) ∧
    ((routeExplain lang ui resp active mem1).action = "unchanged" →
      ∃ a, active = some a ∧ (routeExplain lang ui resp active mem1).contract = some a ∧
           (routeExplain lang ui resp active mem1).memOut = mem1) := by
  unfold routeExplain
  cases active with
  | none => exact ⟨fun _ => rfl, fun hx => by simp at hx, fun hx => by simp at hx⟩
  | some a => exact ⟨fun hx => by simp at hx, fun hx => by simp at hx, fun _ => ⟨a, rfl, rfl, rfl⟩⟩

theorem routeReview_c3 (lang : String) (resp : Option String)
    (active mem1 : Option String) :
    ((routeReview lang resp active mem1).action = "none" →
      (routeReview lang resp active mem1).contract = none) ∧
    ((routeReview lang resp active mem1).action = "updated" →
      ∃ c, (routeReview lang resp active mem1).contract = some c ∧
           (routeReview lang resp active mem1).memOut = some c) ∧
    ((routeReview lang resp active mem1).action = "unchanged" →
      ∃ a, active = some a ∧ (routeReview lang resp active mem1).contract = some a ∧
           (routeReview lang resp active mem1).memOut = mem1) := by
  unfold routeReview
  cases active with
  | none => exact ⟨fun _ => rfl, fun hx => by simp at hx, fun hx => by simp at hx⟩
  | some a => exact ⟨fun hx => by simp at hx, fun hx => by simp at hx, fun _ => ⟨a, rfl, rfl, rfl⟩⟩

theorem routeChat_c3 (lang : String) (resp : Option String)
    (active mem1 : Option String) :
    ((routeChat lang resp active mem1).action = "none" →
      (routeChat lang resp active mem1).contract = none) ∧
    ((routeChat lang resp active mem1).action = "updated" →
      ∃ c, (routeChat lang resp active mem1).contract = some c ∧
           (routeChat lang resp active mem1).memOut = some c) ∧
    ((routeChat lang resp active mem1).action = "unchanged" →
      ∃ a, active = some a ∧ (routeChat lang resp active mem1).contract = some a ∧
           (routeChat lang resp active mem1).memOut = mem1) := by
  unfold routeChat
  cases resp with
  | none =>
    cases active with
    | none => exact ⟨fun _ => rfl, fun hx => by simp at hx, fun hx => by simp at hx⟩
    | some a => exact ⟨fun hx => by simp at hx, fun hx => by simp at hx, fun _ => ⟨a, rfl, rfl, rfl⟩⟩
  | some content =>
    cases active with
    | none => exact ⟨fun _ => rfl, fun hx => by simp at hx, fun hx => by simp at hx⟩
    | some a => exact ⟨fun hx => by simp at hx, fun hx => by simp at hx, fun _ => ⟨a, rfl, rfl, rfl⟩⟩

/-! ## Claim theorems: C3 -/

/-- C3 counterexample: two clauses of the stated invariant fail.
(i) A `create` call whose completion reproduces exactly the stored artifact
returns action "updated" with a contract byte-identical to the immediately
preceding stored artifact ("Lease contract body.", present before the call).
(ii) A call that supplies the contract with surrounding whitespace stores the
padded text verbatim but returns the stripped text in an "unchanged" result,
so the contract field is not byte-identical to the stored artifact. -/
theorem c3_cex_invariant_as_stated :
    ((get_chat_response refNow "make a new contract" none (some "Lease contract body.")
        "create" (some "Lease contract body.")).action = "updated" ∧
     (get_chat_response refNow "make a new contract" none (some "Lease contract body.")
        "create" (some "Lease contract body.")).contract = some "Lease contract body.") ∧
    ((get_chat_response refNow "hello" (some " padded contract ") none "chat" (some "hi")).action = "unchanged" ∧
     (get_chat_response refNow "hello" (some " padded contract ") none "chat" (some "hi")).contract =
        some "padded contract" ∧
     (get_chat_response refNow "hello" (some " padded contract ") none "chat" (some "hi")).memOut =
        some " padded contract ") := by
  refine ⟨⟨by decide, by decide⟩, by decide, by decide, by decide⟩

/-- C3 (amended): every return branch satisfies — action "none" implies the
contract field is absent; action "updated" implies the contract field is
present and equals the artifact newly stored by this call (not necessarily
different from the previous artifact); action "unchanged" implies the
contract field equals the call's active contract (the caller-supplied
contract stripped of surrounding whitespace, or else the stored artifact)
and the memory slot is exactly what the initial sync step left. -/
theorem c3_routing_result_invariant (ref : PyDateTime) (ui : String) (cc mem : Option String)
    (ia : String) (resp : Option String) :
    ((get_chat_response ref ui cc mem ia resp).action = "none" →
      (get_chat_response ref ui cc mem ia resp).contract = none) ∧
    ((get_chat_response ref ui cc mem ia resp).action = "updated" →
      ∃ c, (get_chat_response ref ui cc mem ia resp).contract = some c ∧
           (get_chat_response ref ui cc mem ia resp).memOut = some c) ∧
    ((get_chat_response ref ui cc mem ia resp).action = "unchanged" →
      ∃ a, activeContract cc mem = some a ∧
           (get_chat_response ref ui cc mem ia resp).contract = some a ∧
           (get_chat_response ref ui cc mem ia resp).memOut = syncMemory cc mem) := by
  unfold get_chat_response
  dsimp only
  split_ifs
  · exact routeCreate_c3 ref _ ui resp _ _
  · exact routeEdit_c3 ref _ ui resp _ _
  · exact routeExplain_c3 _ ui resp _ _
  · exact routeReview_c3 _ resp _ _
  · exact routeChat_c3 _ resp _ _

/-- C3 witness: a chat turn with no artifact anywhere yields action "none"
with an absent contract field. -/
theorem c3_witness :
    (get_chat_response refNow "hello" none none "chat" (some "hi")).contract = none :=
  (c3_routing_result_invariant refNow "hello" none none "chat" (some "hi")).1 (by decide)

/-! ## Claim theorems: C7 -/

/-- C7: an edit call with an active contract whose edit-operation output is
byte-identical to that contract, or strips to fewer than 200 characters,
returns action "unchanged" with the prior contract as the contract field. -/
theorem c7_noop_edit_unchanged (ref : PyDateTime) (ui : String) (cc mem : Option String)
    (resp : Option String) (a : String)
    (hact : activeContract cc mem = some a)
    (hnoop : edit_contract ref a ui resp = a ∨
             (pyStrip (edit_contract ref a ui resp)).length < MIN_CONTRACT_LENGTH) :
    (get_chat_response ref ui cc mem "edit" resp).action = "unchanged" ∧
    (get_chat_response ref ui cc mem "edit" resp).contract = some a := by
  unfold get_chat_response
  dsimp only
  rw [if_neg (by decide), if_pos rfl]
  unfold routeEdit
  rw [hact]
  dsimp only
  by_cases h1 : edit_contract ref a ui resp ≠ "" ∧
      isErrorMessage (edit_contract ref a ui resp) = true
  · rw [if_pos h1]
    exact ⟨rfl, rfl⟩
  · rw [if_neg h1]
    have h2 : ¬(edit_contract ref a ui resp ≠ "" ∧
        MIN_CONTRACT_LENGTH ≤ (pyStrip (edit_contract ref a ui resp)).length ∧
        edit_contract ref a ui resp ≠ a) := by
      rcases hnoop with he | hl
      · exact fun hc => hc.2.2 he
      · exact fun hc => absurd hc.2.1 (by omega)
    rw [if_neg h2]
    exact ⟨rfl, rfl⟩

/-- C7 witness: an edit whose completion returns the input contract verbatim
is reported "unchanged" with the prior contract preserved. -/
theorem c7_witness :
    (get_chat_response refNow "edit please" none (some "LEASE AGREEMENT") "edit"
        (some "LEASE AGREEMENT")).action = "unchanged" ∧
    (get_chat_response refNow "edit please" none (some "LEASE AGREEMENT") "edit"
        (some "LEASE AGREEMENT")).contract = some "LEASE AGREEMENT" :=
  c7_noop_edit_unchanged refNow "edit please" none (some "LEASE AGREEMENT") (some "LEASE AGREEMENT")
    "LEASE AGREEMENT" (by decide) (Or.inl (by decide))

/-! ## Claim theorems: C8 -/

/-- C8: an edit call with no active contract — none supplied this turn, none
stored — returns the localized guidance message with an absent contract field
and action "none"; the result does not depend on the completion backend at
all (the Edit operation is never consulted), and memory is unchanged. -/
theorem c8_edit_without_contract (ref : PyDateTime) (ui : String) (cc mem : Option String)
    (resp : Option String) (hactive : activeContract cc mem = none) :
    get_chat_response ref ui cc mem "edit" resp =
      ⟨if detect_language ui = "arabic" then "أحتاج عقد موجود لأعدله. الصق العقد أو اطلب إنشاء عقد جديد."
         else "I need an existing contract to edit. Paste one or ask me to create a new contract.",
       none, "none", syncMemory cc mem⟩ := by
  unfold get_chat_response
  dsimp only
  rw [if_neg (by decide), if_pos rfl]
  unfold routeEdit
  rw [hactive]

/-- C8 witness: concrete guidance result, independent of the supplied
backend answer. -/
theorem c8_witness :
    get_chat_response refNow "edit the contract" none none "edit" (some "IGNORED") =
      ⟨"I need an existing contract to edit. Paste one or ask me to create a new contract.",
       none, "none", none⟩ := by
  rw [c8_edit_without_contract refNow "edit the contract" none none (some "IGNORED") (by decide)]
  decide

end LeaseBot
